import Mathlib

/-!
Verification development for the Chargedrops location-directory front-end.

The definitions below are a shallow embedding of the data-shaping code of
the repository: the record normalizers of `PublicMapPage.tsx` (`useCity`,
`useVenues`) and `App.tsx` (`loadCity`, `loadVenues`), the selection
derivations, the live-overlay render expressions, the station-ledger batch
writes of the admin dashboard (`EditVenueView.handleSave`,
`AddVenueView.handleSaveVenue`), and the debounce effect of the
autocomplete search.  Loosely-typed Firestore payloads are modelled by the
`JsValue` type; JavaScript numbers that may be `NaN` are modelled as
`Option ℚ` with `none` standing for `NaN`.
-/

namespace Chargedrops

/-- A loosely-typed JavaScript value as stored in / read from Firestore.
`undefined` is an absent field, `null` is the JS `null`.
Numbers carry a rational (stored Firestore numbers are never `NaN`). -/
inductive JsValue where
  | undefined
  | null
  | num (q : ℚ)
  | str (s : String)
  | bool (b : Bool)
  | arr (elems : List JsValue)

/-- `true` exactly for `undefined` and `null`: the values the JS nullish
coalescing operator `??` replaces. -/
def JsValue.isNullish : JsValue → Bool
  | .undefined => true
  | .null => true
  | _ => false

/-- Embedding of `v ?? d`: `d` when `v` is `undefined` or `null`, else `v`. -/
def JsValue.orDefault (v d : JsValue) : JsValue :=
  if v.isNullish then d else v

/-- JS truthiness, used by conditions such as `if (selectedVenue.place_id)`. -/
def JsValue.isTruthy : JsValue → Bool
  | .undefined => false
  | .null => false
  | .num q => decide (q ≠ 0)
  | .str s => decide (s ≠ "")
  | .bool b => b
  | .arr _ => true

/-- Embedding of `Array.isArray(v) ? v : []` (the `photos` /
`opening_hours_text` normalization). -/
def JsValue.asArray : JsValue → List JsValue
  | .arr xs => xs
  | _ => []

/-- Value of a decimal digit run, `none` if any character is not a
decimal digit (the empty run evaluates to `0`; callers rule it out where
JS does). -/
def digitsVal? (cs : List Char) : Option ℕ :=
  cs.foldl
    (fun acc c =>
      acc.bind fun n => if c.isDigit then some (10 * n + (c.toNat - 48)) else none)
    (some 0)

/-- Strip leading and trailing whitespace, as JS `Number()` does before
parsing. -/
def trimChars (cs : List Char) : List Char :=
  ((cs.dropWhile Char.isWhitespace).reverse.dropWhile Char.isWhitespace).reverse

/-- Split a character list on the `'.'` separator. -/
def splitOnDot : List Char → List (List Char)
  | [] => [[]]
  | c :: rest =>
      let r := splitOnDot rest
      if c = '.' then [] :: r
      else
        match r with
        | [] => [[c]]
        | g :: gs => (c :: g) :: gs

/-- Embedding of JS `Number()` applied to a string, restricted to decimal
literals (optional sign, digits, optional fraction).  The whitespace-trim
and the empty-string-to-`0` rule follow the JS semantics; exotic forms
(hex, exponents, `Infinity`) do not occur in this repository's data and
are mapped to `none` (`NaN`). -/
def jsStringToNumber (s : String) : Option ℚ :=
  let t := trimChars s.data
  if t.isEmpty then some 0 else
  let neg : Bool := t.head? = some '-'
  let body := if t.head? = some '-' ∨ t.head? = some '+' then t.tail else t
  let signed : ℚ → ℚ := fun q => if neg then -q else q
  match splitOnDot body with
  | [w] =>
      if w.isEmpty then none
      else (digitsVal? w).map fun n => signed (n : ℚ)
  | [w, f] =>
      if w.isEmpty ∧ f.isEmpty then none
      else
        match (if w.isEmpty then some 0 else digitsVal? w),
              (if f.isEmpty then some 0 else digitsVal? f) with
        | some wn, some fn =>
            some (signed ((wn : ℚ) + (fn : ℚ) / (10 : ℚ) ^ f.length))
        | _, _ => none
  | _ => none

/-- Embedding of the JS `Number()` coercion.  `none` models `NaN`.
`Number(undefined) = NaN`, `Number(null) = 0`, booleans map to `0`/`1`,
strings go through `jsStringToNumber`.  Arrays coerce through their
string form: `[] → 0`, a singleton coerces like its element (exact for
numbers, numeric strings, `null`/`undefined`), longer arrays give `NaN`. -/
def JsValue.toNumber : JsValue → Option ℚ
  | .undefined => none
  | .null => some 0
  | .num q => some q
  | .bool b => some (if b then 1 else 0)
  | .str s => jsStringToNumber s
  | .arr [] => some 0
  | .arr [v] =>
      match v with
      | .num q => some q
      | .str s => jsStringToNumber s
      | .null => some 0
      | .undefined => some 0
      | _ => none
  | .arr (_ :: _ :: _) => none

/-! ## Raw Firestore records and the record normalizers -/

/-- A raw `cities` document: every field is a loosely-typed `JsValue`
(absent fields are `undefined`).  `mapCenter` is kept structured because the
source only inspects its `lat`/`lng` members. -/
structure RawMapCenter where
  present : Bool := false
  lat : JsValue := .undefined
  lng : JsValue := .undefined

structure RawCityDoc where
  slug : JsValue := .undefined
  displayName : JsValue := .undefined
  sponsorName : JsValue := .undefined
  logoUrl : JsValue := .undefined
  mapCenter : RawMapCenter := {}
  mapZoom : JsValue := .undefined

/-- A raw `venues` document (the fields touched by the normalizers). -/
structure RawVenueDoc where
  place_id : JsValue := .undefined
  citySlug : JsValue := .undefined
  venueName : JsValue := .undefined
  address : JsValue := .undefined
  phone : JsValue := .undefined
  website : JsValue := .undefined
  photoUrl : JsValue := .undefined
  totalChargersAvailable : JsValue := .undefined
  totalSlotsFree : JsValue := .undefined
  status : JsValue := .undefined
  lat : JsValue := .undefined
  lng : JsValue := .undefined
  rating : JsValue := .undefined
  user_ratings_total : JsValue := .undefined
  photos : JsValue := .undefined
  editorial_summary : JsValue := .undefined
  opening_hours_text : JsValue := .undefined

/-- The normalized `City` value produced by `useCity` / `loadCity`.
String-typed fields keep the `JsValue` representation because the `??`
defaulting passes wrongly-typed values through unchanged. -/
structure City where
  slug : JsValue
  displayName : JsValue
  sponsorName : JsValue
  logoUrl : JsValue
  mapCenter : Option (ℚ × ℚ)
  mapZoom : ℚ

/-- Embedding of the `mapCenter` check in `useCity` / `loadCity`:
`data.mapCenter && typeof lat === "number" && typeof lng === "number"
? {lat, lng} : null`. -/
def normMapCenter (m : RawMapCenter) : Option (ℚ × ℚ) :=
  if m.present then
    match m.lat, m.lng with
    | .num la, .num ln => some (la, ln)
    | _, _ => none
  else none

/-- Embedding of the city record mapping shared by
`PublicMapPage.tsx` (`useCity`, lines 103-117) and `App.tsx`
(`loadCity`, lines 73-87). -/
def normalizeCity (citySlug : String) (d : RawCityDoc) : City :=
  { slug := d.slug.orDefault (.str citySlug)
    displayName := d.displayName.orDefault (.str citySlug)
    sponsorName := d.sponsorName.orDefault (.str "Sponsor")
    logoUrl := d.logoUrl.orDefault (.str "")
    mapCenter := normMapCenter d.mapCenter
    mapZoom := match d.mapZoom with
               | .num q => q
               | _ => 13 }

/-- The normalized `Venue` value produced by `useVenues` in
`PublicMapPage.tsx`.  Numeric fields are JS numbers that may be `NaN`
(`none`). -/
structure Venue where
  id : String
  place_id : JsValue
  citySlug : JsValue
  venueName : JsValue
  address : JsValue
  phone : JsValue
  website : JsValue
  photoUrl : JsValue
  totalChargersAvailable : Option ℚ
  totalSlotsFree : Option ℚ
  status : JsValue
  lat : Option ℚ
  lng : Option ℚ
  rating : Option ℚ
  user_ratings_total : Option ℚ
  photos : List JsValue
  editorial_summary : JsValue
  opening_hours_text : List JsValue

/-- Placeholder photo used when `photoUrl` is absent. -/
def placeholderPhotoUrl : String :=
  "https://via.placeholder.com/400x240?text=Chargedrops+Location"

/-- Embedding of the venue record mapping of `useVenues`
(`PublicMapPage.tsx`, lines 160-184). -/
def normalizeVenue (docId : String) (d : RawVenueDoc) : Venue :=
  { id := docId
    place_id := d.place_id
    citySlug := d.citySlug.orDefault (.str "")
    venueName := d.venueName.orDefault (.str "Unnamed location")
    address := d.address.orDefault (.str "")
    phone := d.phone.orDefault (.str "")
    website := d.website.orDefault (.str "")
    photoUrl := d.photoUrl.orDefault (.str placeholderPhotoUrl)
    totalChargersAvailable := (d.totalChargersAvailable.orDefault (.num 0)).toNumber
    totalSlotsFree := (d.totalSlotsFree.orDefault (.num 0)).toNumber
    status := d.status.orDefault (.str "unknown")
    lat := (d.lat.orDefault (.num 0)).toNumber
    lng := (d.lng.orDefault (.num 0)).toNumber
    rating := (d.rating.orDefault (.num 0)).toNumber
    user_ratings_total := (d.user_ratings_total.orDefault (.num 0)).toNumber
    photos := d.photos.asArray
    editorial_summary := d.editorial_summary.orDefault (.str "")
    opening_hours_text := d.opening_hours_text.asArray }

/-- The slimmer venue shape of the legacy `App.tsx` page. -/
structure AppVenue where
  id : String
  citySlug : JsValue
  venueName : JsValue
  address : JsValue
  phone : JsValue
  website : JsValue
  photoUrl : JsValue
  totalChargersAvailable : Option ℚ
  totalSlotsFree : Option ℚ
  status : JsValue
  lat : Option ℚ
  lng : Option ℚ

/-- Embedding of the venue record mapping of `loadVenues`
(`App.tsx`, lines 112-129). -/
def normalizeAppVenue (docId : String) (d : RawVenueDoc) : AppVenue :=
  { id := docId
    citySlug := d.citySlug.orDefault (.str "")
    venueName := d.venueName.orDefault (.str "Unnamed location")
    address := d.address.orDefault (.str "")
    phone := d.phone.orDefault (.str "")
    website := d.website.orDefault (.str "")
    photoUrl := d.photoUrl.orDefault (.str placeholderPhotoUrl)
    totalChargersAvailable := (d.totalChargersAvailable.orDefault (.num 0)).toNumber
    totalSlotsFree := (d.totalSlotsFree.orDefault (.num 0)).toNumber
    status := d.status.orDefault (.str "unknown")
    lat := (d.lat.orDefault (.num 0)).toNumber
    lng := (d.lng.orDefault (.num 0)).toNumber }

/-! ## Directory loader state machines

Each async load is split into a *start* step (the synchronous prefix of
the effect, run when the effect fires for a slug) and a *complete* step
(the continuation run when the storage response arrives).  The `cancelled`
argument of a complete step is the effect's cleanup flag: it is `true`
exactly when the effect was cleaned up (the slug changed or the component
unmounted) before the response arrived. -/

/-- State of the `useCity` hook (`PublicMapPage.tsx`, lines 78-133). -/
structure CityHookState where
  city : Option City
  loading : Bool
  error : Option String

def initialCityHookState : CityHookState :=
  { city := none, loading := true, error := none }

/-- Outcome of the `getDocs(query(cities, where slug == ...))` call:
either a snapshot (list of `(docId, data)` in storage order) or a
rejection. -/
inductive CityQueryOutcome where
  | ok (docs : List (String × RawCityDoc))
  | failure

/-- Synchronous prefix of `loadCity` in `useCity`:
`setLoading(true); setError(null)`. -/
def cityLoadStart (s : CityHookState) : CityHookState :=
  { s with loading := true, error := none }

/-- Continuation of `loadCity` in `useCity` (`PublicMapPage.tsx`,
lines 92-123).  On a snapshot: `if (cancelled) return;` then either the
not-found message or the normalized first document.  On a rejection the
`catch` block runs `setError(...)` with no `cancelled` check, and the
`finally` block clears `loading` only when not cancelled. -/
def cityLoadComplete (citySlug : String) (cancelled : Bool)
    (outcome : CityQueryOutcome) (s : CityHookState) : CityHookState :=
  match outcome with
  | .ok docs =>
      if cancelled then s
      else
        match docs with
        | [] => { s with error := some "City configuration not found.", loading := false }
        | (_, d) :: _ => { s with city := some (normalizeCity citySlug d), loading := false }
  | .failure =>
      let s' := { s with error := some "Unable to load city configuration." }
      if cancelled then s' else { s' with loading := false }

/-- State of the `useVenues` hook (`PublicMapPage.tsx`, lines 138-201). -/
structure VenuesHookState where
  venues : List Venue
  loading : Bool
  error : Option String

def initialVenuesHookState : VenuesHookState :=
  { venues := [], loading := true, error := none }

inductive VenuesQueryOutcome where
  | ok (docs : List (String × RawVenueDoc))
  | failure

/-- Synchronous prefix of `loadVenues` in `useVenues`. -/
def venuesLoadStart (s : VenuesHookState) : VenuesHookState :=
  { s with loading := true, error := none }

/-- Continuation of `loadVenues` in `useVenues` (`PublicMapPage.tsx`,
lines 157-191).  The success path is guarded by `if (cancelled) return;`;
the `catch` path sets the error message unconditionally. -/
def venuesLoadComplete (cancelled : Bool) (outcome : VenuesQueryOutcome)
    (s : VenuesHookState) : VenuesHookState :=
  match outcome with
  | .ok docs =>
      if cancelled then s
      else { s with venues := docs.map fun p => normalizeVenue p.1 p.2,
                    loading := false }
  | .failure =>
      let s' := { s with error := some "Unable to load locations right now." }
      if cancelled then s' else { s' with loading := false }

/-- Combined state of the legacy `App.tsx` page. -/
structure AppState where
  venues : List AppVenue
  selectedId : Option String
  loadingVenues : Bool
  venueError : Option String
  city : Option City
  loadingCity : Bool
  cityError : Option String

def initialAppState : AppState :=
  { venues := [], selectedId := none, loadingVenues := true, venueError := none,
    city := none, loadingCity := true, cityError := none }

/-- Outcome of the `getDoc(doc(cities, citySlug))` point read in
`App.tsx`: a snapshot that exists (`some data`) or not (`none`), or a
rejection. -/
inductive GetDocOutcome where
  | ok (data : Option RawCityDoc)
  | failure

def appLoadCityStart (s : AppState) : AppState :=
  { s with loadingCity := true, cityError := none }

/-- Continuation of `loadCity` in `App.tsx` (lines 62-93).  Note the
not-found path runs `setCity(null)` before setting the message, and the
`catch` path sets the message without a `cancelled` check. -/
def appLoadCityComplete (citySlug : String) (cancelled : Bool)
    (outcome : GetDocOutcome) (s : AppState) : AppState :=
  match outcome with
  | .ok data =>
      if cancelled then s
      else
        match data with
        | none => { s with city := none,
                           cityError := some "City configuration not found.",
                           loadingCity := false }
        | some d => { s with city := some (normalizeCity citySlug d),
                             loadingCity := false }
  | .failure =>
      let s' := { s with cityError := some "Unable to load city configuration." }
      if cancelled then s' else { s' with loadingCity := false }

def appLoadVenuesStart (s : AppState) : AppState :=
  { s with loadingVenues := true, venueError := none }

/-- Continuation of `loadVenues` in `App.tsx` (lines 100-145).  On
success the venue list is replaced and the selection is set to the first
item's id (or cleared when the list is empty). -/
def appLoadVenuesComplete (cancelled : Bool) (outcome : VenuesQueryOutcome)
    (s : AppState) : AppState :=
  match outcome with
  | .ok docs =>
      if cancelled then s
      else
        let items := docs.map fun p => normalizeAppVenue p.1 p.2
        { s with venues := items,
                 selectedId := match items with
                               | [] => none
                               | v :: _ => some v.id,
                 loadingVenues := false }
  | .failure =>
      let s' := { s with venueError := some "Unable to load locations right now." }
      if cancelled then s' else { s' with loadingVenues := false }

/-! ## Selection derivation -/

/-- Embedding of `PublicMapPage.tsx`, lines 243-246:
`venues.find((v) => v.id === selectedId) ?? null`. -/
def selectedVenuePM (venues : List Venue) (selectedId : Option String) :
    Option Venue :=
  venues.find? fun v => some v.id == selectedId

/-- Embedding of `App.tsx`, lines 156-157:
`venues.find((v) => v.id === selectedId) ?? (venues.length ? venues[0] : null)`. -/
def selectedVenueApp (venues : List AppVenue) (selectedId : Option String) :
    Option AppVenue :=
  match venues.find? (fun v => some v.id == selectedId) with
  | some v => some v
  | none => venues.head?

/-! ## Live overlay (`PublicMapPage.tsx`) -/

/-- The `liveVenueData` object built in the `getDetails` callback:
each field is the raw SDK value, which may be `undefined`. -/
structure LiveVenueData where
  open_now : Option Bool
  rating : Option ℚ
  user_ratings_total : Option ℚ

/-- The rating handed to `StarRating` (`PublicMapPage.tsx`, line 448):
`liveVenueData?.rating ?? selectedVenue.rating ?? 0`.  The venue's
`rating` is always a number after normalization (possibly `NaN`), so the
final `?? 0` never fires; it would only replace `undefined`/`null`. -/
def shownRating (live : Option LiveVenueData) (v : Venue) : Option ℚ :=
  match live.bind LiveVenueData.rating with
  | some q => some q
  | none => v.rating

/-- The review count handed to `StarRating` (same line):
`liveVenueData?.user_ratings_total ?? selectedVenue.user_ratings_total ?? 0`. -/
def shownReviewCount (live : Option LiveVenueData) (v : Venue) : Option ℚ :=
  match live.bind LiveVenueData.user_ratings_total with
  | some q => some q
  | none => v.user_ratings_total

/-- `StarRating` renders nothing when `!rating || rating === 0`
(`PublicMapPage.tsx`, line 58): so stars show exactly when the rating is
a number (not `NaN`) different from `0`. -/
def starRatingVisible (rating : Option ℚ) : Bool :=
  match rating with
  | none => false
  | some q => decide (q ≠ 0)

/-- What the open/closed slot of the detail panel renders
(`PublicMapPage.tsx`, lines 431-446). -/
inductive OpenNowIndicator where
  | loadingPulse
  | openBadge
  | closedBadge
  | placeholder
deriving DecidableEq

def openNowIndicator (loadingLive : Bool) (live : Option LiveVenueData) :
    OpenNowIndicator :=
  if loadingLive then .loadingPulse
  else
    match live.bind LiveVenueData.open_now with
    | some true => .openBadge
    | some false => .closedBadge
    | none => .placeholder

/-! ## Live-overlay fetch effect (`PublicMapPage.tsx`, lines 257-278)

The effect re-runs whenever the derived `selectedVenue` changes.  If the
venue has a truthy `place_id` it sets `loadingLive` and issues a
`getDetails` request; otherwise it clears `liveVenueData`.  The callback
stores the result unconditionally — there is no cleanup function and no
staleness flag.  `isLoaded` (the SDK flag) is assumed `true`. -/

structure LiveFetchState where
  selectedId : Option String
  liveVenueData : Option LiveVenueData
  loadingLive : Bool
  /-- `place_id`s of in-flight `getDetails` requests. -/
  pendingRequests : List String

def initialLiveFetchState : LiveFetchState :=
  { selectedId := none, liveVenueData := none, loadingLive := false,
    pendingRequests := [] }

/-- `setSelectedId(sel)` followed by the effect body: the effect fires
because `selectedVenue` (a `useMemo` of `venues` and `selectedId`)
changed. -/
def selectVenueEffect (venues : List Venue) (sel : Option String)
    (s : LiveFetchState) : LiveFetchState :=
  let s := { s with selectedId := sel }
  match selectedVenuePM venues sel with
  | some v =>
      match v.place_id with
      | .str pid =>
          if pid ≠ "" then
            { s with loadingLive := true,
                     pendingRequests := s.pendingRequests ++ [pid] }
          else { s with liveVenueData := none }
      | _ => { s with liveVenueData := none }
  | none => { s with liveVenueData := none }

/-- The `getDetails` callback for the request keyed by `pid`:
`setLiveVenueData({...})` when the status is OK, then
`setLoadingLive(false)` — with no comparison against the current
selection. -/
def liveDetailsArrive (ok : Bool) (details : LiveVenueData) (pid : String)
    (s : LiveFetchState) : LiveFetchState :=
  let s := { s with pendingRequests := s.pendingRequests.erase pid }
  if ok then { s with liveVenueData := some details, loadingLive := false }
  else { s with loadingLive := false }

/-! ## Station assignment ledger (admin, `src/unnamed/part_001`) -/

/-- An entry of a venue's `stationDetails` list. -/
structure VenueStation where
  stationId : String
  stationLocation : String
deriving DecidableEq

/-- The slice of a `venues` document the ledger touches.  The save paths
carry every other field of the loaded/looked-up venue through unchanged;
`venueName` stands in for those pass-through fields. -/
structure VenueRecord where
  venueName : String
  stationDetails : List VenueStation
  totalChargersAvailable : ℚ
deriving DecidableEq

/-- The Firestore slice the admin batches write: the `stations`
collection (`id ↦ Assigned`) and the `venues` collection. -/
structure Store where
  stations : List (String × Bool)
  venues : List (String × VenueRecord)
deriving DecidableEq

def getAssoc {α : Type} (l : List (String × α)) (k : String) : Option α :=
  (l.find? fun p => p.1 == k).map Prod.snd

def setAssoc {α : Type} (l : List (String × α)) (k : String) (v : α) :
    List (String × α) :=
  l.map fun p => if p.1 == k then (p.1, v) else p

/-- One staged write of a `writeBatch`. -/
inductive BatchOp where
  | updateStation (id : String) (assigned : Bool)
  | updateVenue (id : String) (data : VenueRecord)
  | setVenue (id : String) (data : VenueRecord)

/-- Effect of a single staged write on the store.  `updateDoc` modifies
an existing document (a missing target makes the whole commit fail, which
the `succeed` flag of `commitBatch` accounts for); `set` creates the
document when absent. -/
def applyOp (st : Store) (op : BatchOp) : Store :=
  match op with
  | .updateStation id b => { st with stations := setAssoc st.stations id b }
  | .updateVenue id d => { st with venues := setAssoc st.venues id d }
  | .setVenue id d =>
      { st with venues :=
          if (getAssoc st.venues id).isSome then setAssoc st.venues id d
          else st.venues ++ [(id, d)] }

/-- `batch.commit()`: Firestore applies every staged write or none.
A failed commit leaves the store exactly as it was. -/
def commitBatch (st : Store) (ops : List BatchOp) (succeed : Bool) : Store :=
  if succeed then ops.foldl applyOp st else st

/-- The venue document staged by `EditVenueView.handleSave`
(`part_001`, line 592): the loaded venue with `stationDetails` replaced
by the form entries filtered to a truthy (non-blank) `stationId`.  No
other field — in particular not `totalChargersAvailable` — is
recomputed. -/
def editVenueDataToSave (venue : VenueRecord)
    (venueStations : List VenueStation) : VenueRecord :=
  { venue with stationDetails := venueStations.filter fun vs => vs.stationId != "" }

/-- The staged writes of `EditVenueView.handleSave` (`part_001`,
lines 564-596): `originalStationIds` and `newStationIds` are JS `Set`s
(dedup, insertion order); ids leaving the venue get `Assigned := false`,
ids joining it get `Assigned := true`, and the venue document is updated
last. -/
def editVenueBatch (venueId : String) (venue : VenueRecord)
    (venueStations : List VenueStation) : List BatchOp :=
  let originalStationIds := (venue.stationDetails.map VenueStation.stationId).dedup
  let newStationIds :=
    ((venueStations.filter fun vs => vs.stationId != "").map VenueStation.stationId).dedup
  let removals :=
    (originalStationIds.filter fun i => !(newStationIds.contains i)).map
      fun i => BatchOp.updateStation i false
  let additions :=
    (newStationIds.filter fun i => !(originalStationIds.contains i)).map
      fun i => BatchOp.updateStation i true
  removals ++ additions ++ [BatchOp.updateVenue venueId (editVenueDataToSave venue venueStations)]

/-- The venue document staged by `AddVenueView.handleSaveVenue`
(`part_001`, lines 804-831): `stationDetails` filtered to non-blank ids
and `totalChargersAvailable` set to the filtered count. -/
def addVenueDataToSave (place : VenueRecord)
    (venueStations : List VenueStation) : VenueRecord :=
  let filtered := venueStations.filter fun vs => vs.stationId != ""
  { place with stationDetails := filtered,
               totalChargersAvailable := (filtered.length : ℚ) }

/-- The staged writes of `AddVenueView.handleSaveVenue` (`part_001`,
lines 798-843): `batch.set` of the new venue document, then
`Assigned := true` for each station in the filtered `stationDetails`. -/
def addVenueBatch (newVenueId : String) (place : VenueRecord)
    (venueStations : List VenueStation) : List BatchOp :=
  let dataToSave := addVenueDataToSave place venueStations
  BatchOp.setVenue newVenueId dataToSave ::
    dataToSave.stationDetails.map fun sd => BatchOp.updateStation sd.stationId true

/-! ## Autocomplete debounce (`AdminDashboardPage.tsx` lines 399-414,
`part_001` lines 275-294 and 720-735)

Each keystroke re-runs the effect: the cleanup of the previous run
(`clearTimeout(handler)`) fires first, then a fresh 500ms timer is
scheduled.  When a timer fires, the closure issues the external search
for its captured query (or clears the results when the query is empty or
the SDK is not loaded). -/

structure DebounceTimer where
  timerId : ℕ
  query : String
  /-- scheduling time + 500ms -/
  deadline : ℕ

structure DebounceState where
  timers : List DebounceTimer
  nextId : ℕ
  /-- external autocomplete calls issued, as `(query, time)` -/
  searches : List (String × ℕ)
  resultsCleared : Bool

def initialDebounceState : DebounceState :=
  { timers := [], nextId := 0, searches := [], resultsCleared := false }

/-- One run of the debounce effect for query `q` at time `t`: cleanup of
the previous run's timer (when there was one), then `setTimeout(…, 500)`.
Returns the new state and the fresh timer's handle. -/
def debounceEffectRun (prevHandler : Option ℕ) (q : String) (t : ℕ)
    (s : DebounceState) : DebounceState × ℕ :=
  let cleaned :=
    match prevHandler with
    | some h => s.timers.filter fun tm => tm.timerId ≠ h
    | none => s.timers
  ({ s with timers := cleaned ++ [{ timerId := s.nextId, query := q, deadline := t + 500 }],
            nextId := s.nextId + 1 },
   s.nextId)

/-- A pending timer fires: the timer is consumed and the captured closure
runs — `if (searchQuery && isLoaded)` issue the external search, else
`setSearchResults([])`. -/
def debounceTimerFire (isLoaded : Bool) (tm : DebounceTimer)
    (s : DebounceState) : DebounceState :=
  let s := { s with timers := s.timers.filter fun t => t.timerId ≠ tm.timerId }
  if tm.query ≠ "" ∧ isLoaded then
    { s with searches := s.searches ++ [(tm.query, tm.deadline)] }
  else { s with resultsCleared := true }

/-- Loop state while replaying a keystroke trace: the debounce state plus
the handle the previous effect run stored for its cleanup. -/
structure DebounceLoop where
  st : DebounceState
  handler : Option ℕ

def debounceStep (l : DebounceLoop) (e : String × ℕ) : DebounceLoop :=
  let (s', h) := debounceEffectRun l.handler e.1 e.2 l.st
  { st := s', handler := some h }

/-- Replay a time-ordered keystroke trace from the initial state. -/
def processKeystrokes (ks : List (String × ℕ)) : DebounceLoop :=
  ks.foldl debounceStep { st := initialDebounceState, handler := none }

/-! ## Shared demo records -/

/-- A small concrete city document used by scenario theorems. -/
def demoCityDocB : RawCityDoc :=
  { slug := .str "b", displayName := .str "City B",
    sponsorName := .str "Sponsor B", mapZoom := .num 12 }

/-- A small concrete venue used by scenario theorems. -/
def baseVenue : Venue :=
  { id := "", place_id := .undefined, citySlug := .str "demo-city",
    venueName := .str "Venue", address := .str "1 Main St", phone := .str "",
    website := .str "", photoUrl := .str placeholderPhotoUrl,
    totalChargersAvailable := some 1, totalSlotsFree := some 8,
    status := .str "unknown", lat := some 0, lng := some 0,
    rating := some 4, user_ratings_total := some 10, photos := [],
    editorial_summary := .str "", opening_hours_text := [] }

def baseAppVenue : AppVenue :=
  { id := "v1", citySlug := .str "demo-city", venueName := .str "Cafe",
    address := .str "1 Main St", phone := .str "", website := .str "",
    photoUrl := .str placeholderPhotoUrl, totalChargersAvailable := some 2,
    totalSlotsFree := some 8, status := .str "unknown",
    lat := some 0, lng := some 0 }

/-! ## C10 -/

/-- C10: on the legacy single-page public view, a successful venue load
sets the selection to the id of the first venue of the returned list when
it is non-empty and clears it when the list is empty, so the page never
ends a successful load unselected with a non-empty list. -/
theorem C10_initial_selection (docs : List (String × RawVenueDoc)) (s : AppState) :
    (appLoadVenuesComplete false (.ok docs) s).selectedId
      = ((appLoadVenuesComplete false (.ok docs) s).venues.head?).map AppVenue.id := by
  cases docs <;> simp [appLoadVenuesComplete]

/-! ## C3 -/

/-- C3 counterexample: on the legacy `App.tsx` page, a `selectedId` that
matches no venue of a non-empty list derives the *first venue*, not
"none" — refuting the claim as stated for that page. -/
theorem C3_counterexample :
    selectedVenueApp [baseAppVenue] (some "zzz") = some baseAppVenue
    ∧ baseAppVenue.id ≠ "zzz"
    ∧ some baseAppVenue ≠ (none : Option AppVenue) := by
  refine ⟨rfl, by simp [baseAppVenue], by simp⟩

/-- C3 amended: the active venue is always recomputed by id lookup; in
`PublicMapPage` an absent `selectedId` derives no active venue, while the
legacy `App.tsx` page falls back to the first venue of a non-empty list
(and derives none only when the list is empty). -/
theorem C3_selection_amended (venuesP : List Venue) (venuesA : List AppVenue)
    (sid : Option String)
    (hP : ∀ v ∈ venuesP, (some v.id == sid) = false)
    (hA : ∀ v ∈ venuesA, (some v.id == sid) = false) :
    selectedVenuePM venuesP sid = none
    ∧ selectedVenueApp venuesA sid = venuesA.head? := by
  constructor
  · exact List.find?_eq_none.mpr (by simpa using hP)
  · unfold selectedVenueApp
    rw [List.find?_eq_none.mpr (by simpa using hA)]

theorem C3_selection_amended_witness :
    selectedVenuePM [baseVenue] (some "zzz") = none
    ∧ selectedVenueApp [baseAppVenue] (some "zzz") = [baseAppVenue].head? :=
  C3_selection_amended [baseVenue] [baseAppVenue] (some "zzz")
    (by simp [baseVenue]) (by simp [baseAppVenue])

/-! ## C1 -/

/-- State of `useCity` after: the effect runs for slug `a`, the slug
changes to `b` (cleanup marks `a`'s load cancelled), the effect runs for
`b`, and `b`'s load succeeds. -/
def c1StateAfterB : CityHookState :=
  cityLoadComplete "b" false (.ok [("b", demoCityDocB)])
    (cityLoadStart (cityLoadStart initialCityHookState))

/-- C1: the staleness guard has a hole — the success path of the load is
guarded by `if (cancelled) return`, but the `catch` path is not, so a
load for slug `a` that *fails* after navigation to slug `b` writes its
error message over the state belonging to `b`'s request.  This theorem
evaluates the code at that failing trace: after `b` has loaded, the late
cancelled failure of `a`'s load still sets the visible error. -/
theorem C1_stale_failure_overwrites_error :
    c1StateAfterB.error = none
    ∧ (cityLoadComplete "a" true .failure c1StateAfterB).error
        = some "Unable to load city configuration."
    ∧ (cityLoadComplete "a" true .failure c1StateAfterB).city
        = some (normalizeCity "b" demoCityDocB)
    ∧ (∀ (s : CityHookState) (slug : String) (docs : List (String × RawCityDoc)),
        cityLoadComplete slug true (.ok docs) s = s) := by
  refine ⟨rfl, rfl, rfl, ?_⟩
  intro s slug docs
  rfl

/-! ## C8 -/

/-- State of the legacy page after its city load succeeded for `b`. -/
def c8Prior : AppState :=
  appLoadCityComplete "b" false (.ok (some demoCityDocB))
    (appLoadCityStart initialAppState)

/-- C8 counterexample: in `App.tsx` the city-not-found path runs
`setCity(null)` before surfacing the message, so a not-found outcome does
*not* leave the previously displayed city untouched — it clears it. -/
theorem C8_counterexample :
    c8Prior.city = some (normalizeCity "b" demoCityDocB)
    ∧ (appLoadCityComplete "b" false (.ok none) (appLoadCityStart c8Prior)).cityError
        = some "City configuration not found."
    ∧ (appLoadCityComplete "b" false (.ok none) (appLoadCityStart c8Prior)).city
        = none := by
  refine ⟨rfl, rfl, rfl⟩

/-- C8 amended: every failing load surfaces its documented message and —
with one exception — leaves previously displayed data untouched: the
`useCity`/`useVenues` hooks never clear data on failure or not-found, the
legacy page's transient failures never clear data, but the legacy page's
city-not-found path resets the city to `null`.  The city load and the
venue load only ever touch their own slice of state, so a failure of one
never suppresses the other's result. -/
theorem C8_failure_semantics_amended (slug : String)
    (sC : CityHookState) (sV : VenuesHookState) (sA : AppState)
    (o : GetDocOutcome) (ov : VenuesQueryOutcome) (c : Bool) :
    ((cityLoadComplete slug false .failure sC).error
        = some "Unable to load city configuration."
      ∧ (cityLoadComplete slug false .failure sC).city = sC.city)
    ∧ ((cityLoadComplete slug false (.ok []) sC).error
        = some "City configuration not found."
      ∧ (cityLoadComplete slug false (.ok []) sC).city = sC.city)
    ∧ ((venuesLoadComplete false .failure sV).error
        = some "Unable to load locations right now."
      ∧ (venuesLoadComplete false .failure sV).venues = sV.venues)
    ∧ ((appLoadVenuesComplete false .failure sA).venueError
        = some "Unable to load locations right now."
      ∧ (appLoadVenuesComplete false .failure sA).venues = sA.venues
      ∧ (appLoadVenuesComplete false .failure sA).selectedId = sA.selectedId)
    ∧ ((appLoadCityComplete slug false .failure sA).cityError
        = some "Unable to load city configuration."
      ∧ (appLoadCityComplete slug false .failure sA).city = sA.city)
    ∧ ((appLoadCityComplete slug false (.ok none) sA).cityError
        = some "City configuration not found."
      ∧ (appLoadCityComplete slug false (.ok none) sA).city = none)
    ∧ ((appLoadCityComplete slug c o sA).venues = sA.venues
      ∧ (appLoadCityComplete slug c o sA).venueError = sA.venueError
      ∧ (appLoadCityComplete slug c o sA).selectedId = sA.selectedId)
    ∧ ((appLoadVenuesComplete c ov sA).city = sA.city
      ∧ (appLoadVenuesComplete c ov sA).cityError = sA.cityError) := by
  refine ⟨⟨rfl, rfl⟩, ⟨rfl, rfl⟩, ⟨rfl, rfl⟩, ⟨rfl, rfl, rfl⟩, ⟨rfl, rfl⟩,
    ⟨rfl, rfl⟩, ?_, ?_⟩
  · rcases o with d | _
    · rcases d with _ | d <;> cases c <;> simp [appLoadCityComplete]
    · cases c <;> simp [appLoadCityComplete]
  · rcases ov with docs | _
    · cases c <;> simp [appLoadVenuesComplete]
    · cases c <;> simp [appLoadVenuesComplete]

/-! ## C4 -/

/-- C4 counterexample: a stored `totalChargersAvailable` that is a
non-numeric string coerces through JS `Number()` to `NaN`, not to the
claimed default `0` — `Number("abc" ?? 0)` is `NaN`. -/
theorem C4_counterexample :
    (normalizeVenue "v1" { totalChargersAvailable := JsValue.str "abc" }).totalChargersAvailable
      = none
    ∧ (none : Option ℚ) ≠ some 0 := by
  exact ⟨rfl, by simp⟩

/-- C4 amended: normalization is total and replaces every absent field by
its documented default, and the numeric fields are coerced with JS
`Number()` semantics: absent values default to `0` and numeric-like
strings parse, but a failed coercion yields `NaN` (modelled `none`), not
`0`. -/
theorem C4_normalization_amended (docId : String) (d : RawVenueDoc)
    (s : String) (q : ℚ) :
    (d.venueName.isNullish = true →
      (normalizeVenue docId d).venueName = .str "Unnamed location")
    ∧ (d.photoUrl.isNullish = true →
      (normalizeVenue docId d).photoUrl = .str placeholderPhotoUrl)
    ∧ (d.status.isNullish = true → (normalizeVenue docId d).status = .str "unknown")
    ∧ (d.address.isNullish = true → (normalizeVenue docId d).address = .str "")
    ∧ (d.citySlug.isNullish = true → (normalizeVenue docId d).citySlug = .str "")
    ∧ (d.photos = .undefined → (normalizeVenue docId d).photos = [])
    ∧ (d.opening_hours_text = .undefined →
      (normalizeVenue docId d).opening_hours_text = [])
    ∧ (d.totalChargersAvailable.isNullish = true →
      (normalizeVenue docId d).totalChargersAvailable = some 0)
    ∧ (d.totalChargersAvailable = .str s → jsStringToNumber s = some q →
      (normalizeVenue docId d).totalChargersAvailable = some q)
    ∧ (d.totalChargersAvailable = .str s → jsStringToNumber s = none →
      (normalizeVenue docId d).totalChargersAvailable = none)
    ∧ (normalizeVenue docId d).totalChargersAvailable
        = (d.totalChargersAvailable.orDefault (.num 0)).toNumber
    ∧ (normalizeVenue docId d).id = docId := by
  refine ⟨?_, ?_, ?_, ?_, ?_, ?_, ?_, ?_, ?_, ?_, rfl, rfl⟩
  · intro h; simp [normalizeVenue, JsValue.orDefault, h]
  · intro h; simp [normalizeVenue, JsValue.orDefault, h]
  · intro h; simp [normalizeVenue, JsValue.orDefault, h]
  · intro h; simp [normalizeVenue, JsValue.orDefault, h]
  · intro h; simp [normalizeVenue, JsValue.orDefault, h]
  · intro h; simp [normalizeVenue, h, JsValue.asArray]
  · intro h; simp [normalizeVenue, h, JsValue.asArray]
  · intro h
    simp only [normalizeVenue]
    rcases hd : d.totalChargersAvailable with _ | _ | _ | _ | _ | _ <;>
      simp [hd, JsValue.isNullish] at h ⊢ <;>
      simp [JsValue.orDefault, JsValue.isNullish, JsValue.toNumber]
  · intro h hq
    simp [normalizeVenue, h, JsValue.orDefault, JsValue.isNullish,
      JsValue.toNumber, hq]
  · intro h hq
    simp [normalizeVenue, h, JsValue.orDefault, JsValue.isNullish,
      JsValue.toNumber, hq]

/-- Raw document with an absent name and a numeric-like charger count. -/
def c4WitnessDoc : RawVenueDoc := { totalChargersAvailable := .str "3" }

theorem C4_normalization_amended_witness :
    (normalizeVenue "w" c4WitnessDoc).venueName = .str "Unnamed location"
    ∧ (normalizeVenue "w" c4WitnessDoc).totalChargersAvailable = some 3 := by
  have h := C4_normalization_amended "w" c4WitnessDoc "3" 3
  exact ⟨h.1 rfl, h.2.2.2.2.2.2.2.2.1 rfl (by decide)⟩

/-! ## C5 -/

/-- C5: each live-overlay field of the selected venue's panel follows
field-level precedence — the live fetched value wins when present and
non-undefined, otherwise the cached venue value shows (for `open_now`,
which has no cached counterpart, a neutral placeholder), and a rating of
`0` (or `NaN`) renders no stars. -/
theorem C5_live_overlay_precedence (live : LiveVenueData) (v : Venue)
    (q : ℚ) (b : Bool) :
    (live.rating = some q → shownRating (some live) v = some q)
    ∧ (live.rating = none → shownRating (some live) v = v.rating)
    ∧ shownRating none v = v.rating
    ∧ (live.user_ratings_total = some q →
        shownReviewCount (some live) v = some q)
    ∧ (live.user_ratings_total = none →
        shownReviewCount (some live) v = v.user_ratings_total)
    ∧ shownReviewCount none v = v.user_ratings_total
    ∧ starRatingVisible (some 0) = false
    ∧ starRatingVisible none = false
    ∧ (live.open_now = some b → openNowIndicator false (some live)
        = (if b then .openBadge else .closedBadge))
    ∧ (live.open_now = none →
        openNowIndicator false (some live) = .placeholder) := by
  refine ⟨?_, ?_, rfl, ?_, ?_, rfl, by decide, rfl, ?_, ?_⟩
  · intro h; simp [shownRating, h]
  · intro h; simp [shownRating, h]
  · intro h; simp [shownReviewCount, h]
  · intro h; simp [shownReviewCount, h]
  · intro h; cases b <;> simp [openNowIndicator, h]
  · intro h; simp [openNowIndicator, h]

/-- Live payload used by the C5 witness: cached rating 4, live rating 5. -/
def c5Live : LiveVenueData :=
  { open_now := some true, rating := some 5, user_ratings_total := some 120 }

theorem C5_live_overlay_precedence_witness :
    shownRating (some c5Live) baseVenue = some 5
    ∧ baseVenue.rating = some 4
    ∧ openNowIndicator false (some c5Live) = .openBadge := by
  have h := C5_live_overlay_precedence c5Live baseVenue 5 true
  exact ⟨h.1 rfl, rfl, h.2.2.2.2.2.2.2.2.1 rfl⟩

/-! ## C6 -/

def c6VenueA : Venue := { baseVenue with id := "A", place_id := .str "pa" }
def c6VenueB : Venue := { baseVenue with id := "B", place_id := .str "pb" }

/-- Live payload that the external service returns for venue A. -/
def c6LiveA : LiveVenueData :=
  { open_now := some true, rating := some 5, user_ratings_total := some 120 }

/-- C6: the live-overlay fetch has no staleness guard — the `getDetails`
callback stores its result unconditionally.  Evaluating the code at the
failing trace (select A, switch to B before A's fetch resolves, A's
response arrives late): A's payload lands in the overlay state while B is
the selected venue (B's own request is still pending), so B's panel shows
A's rating instead of B's cached one. -/
theorem C6_late_result_populates_new_selection :
    (let s1 := selectVenueEffect [c6VenueA, c6VenueB] (some "A")
                 initialLiveFetchState
     let s2 := selectVenueEffect [c6VenueA, c6VenueB] (some "B") s1
     let s3 := liveDetailsArrive true c6LiveA "pa" s2
     s3.selectedId = some "B"
     ∧ s3.liveVenueData = some c6LiveA
     ∧ s3.pendingRequests = ["pb"]
     ∧ shownRating s3.liveVenueData c6VenueB = some 5
     ∧ c6VenueB.rating = some 4) := by
  exact ⟨rfl, rfl, rfl, rfl, rfl⟩

/-! ## C7 -/

def c7Venue : VenueRecord :=
  { venueName := "V", stationDetails := [⟨"s1", "front"⟩],
    totalChargersAvailable := 1 }

def c7Stations : List VenueStation := [⟨"s1", "front"⟩, ⟨"s2", "back"⟩]

/-- C7 counterexample: `EditVenueView.handleSave` replaces
`stationDetails` but does not recompute `totalChargersAvailable`, so a
venue loaded with one station and edited to two stations is saved with
two `stationDetails` entries and a charger count of `1`. -/
theorem C7_counterexample :
    (editVenueDataToSave c7Venue c7Stations).stationDetails.length = 2
    ∧ (editVenueDataToSave c7Venue c7Stations).totalChargersAvailable = 1
    ∧ (editVenueDataToSave c7Venue c7Stations).totalChargersAvailable
        ≠ ((editVenueDataToSave c7Venue c7Stations).stationDetails.length : ℚ) := by
  exact ⟨rfl, rfl, by decide⟩

/-- C7 amended: in the add-venue write path the saved venue's
`totalChargersAvailable` equals the number of non-blank `stationDetails`
entries; the edit-venue write path saves the filtered `stationDetails`
but carries `totalChargersAvailable` over from the loaded venue without
recomputing it. -/
theorem C7_charger_count_amended (place venue : VenueRecord)
    (vss : List VenueStation) :
    (addVenueDataToSave place vss).totalChargersAvailable
        = ((addVenueDataToSave place vss).stationDetails.length : ℚ)
    ∧ (addVenueDataToSave place vss).stationDetails
        = vss.filter (fun vs => vs.stationId != "")
    ∧ (editVenueDataToSave venue vss).totalChargersAvailable
        = venue.totalChargersAvailable
    ∧ (editVenueDataToSave venue vss).stationDetails
        = vss.filter (fun vs => vs.stationId != "") := by
  exact ⟨rfl, rfl, rfl, rfl⟩

/-! ## C9 -/

/-- Invariant of the debounce loop: every pending timer's handle is the
handle the previous effect run stored for its cleanup — so there is at
most one pending timer. -/
def debounceInv (l : DebounceLoop) : Prop :=
  ∀ tm ∈ l.st.timers, l.handler = some tm.timerId

theorem debounceStep_timers (l : DebounceLoop) (q : String) (t : ℕ)
    (h : debounceInv l) :
    (debounceStep l (q, t)).st.timers
      = [{ timerId := l.st.nextId, query := q, deadline := t + 500 }] := by
  have hclean : (match l.handler with
      | some hd => l.st.timers.filter fun tm => tm.timerId ≠ hd
      | none => l.st.timers) = [] := by
    cases hh : l.handler with
    | none =>
        cases htm : l.st.timers with
        | nil => rfl
        | cons a as =>
            have ha := h a (by rw [htm]; exact List.mem_cons_self a as)
            rw [hh] at ha
            exact absurd ha (by simp)
    | some hd =>
        refine List.filter_eq_nil_iff.mpr ?_
        intro tm htm
        have ha := h tm htm
        rw [hh] at ha
        simp only [Option.some.injEq] at ha
        simp [ha]
  simp only [ne_eq, decide_not] at hclean
  simp [debounceStep, debounceEffectRun, hclean]

theorem debounceStep_inv (l : DebounceLoop) (e : String × ℕ)
    (h : debounceInv l) : debounceInv (debounceStep l e) := by
  obtain ⟨q, t⟩ := e
  intro tm htm
  rw [debounceStep_timers l q t h] at htm
  simp only [List.mem_singleton] at htm
  subst htm
  rfl

theorem processKeystrokes_inv (ks : List (String × ℕ)) :
    debounceInv (processKeystrokes ks) := by
  unfold processKeystrokes
  have h0 : debounceInv ({ st := initialDebounceState, handler := none } :
      DebounceLoop) := by
    intro tm htm
    simp [initialDebounceState] at htm
  generalize ({ st := initialDebounceState, handler := none } : DebounceLoop)
    = l0 at h0 ⊢
  induction ks generalizing l0 with
  | nil => exact h0
  | cons e ks ih => exact ih _ (debounceStep_inv _ _ h0)

/-- C9: after any keystroke trace ending with query `q` at time `t`,
exactly one timer is pending (each effect run cancels its predecessor's
timer before scheduling its own), that timer carries `q` with deadline
`t + 500`, and letting it fire issues exactly one external search for `q`
at `t + 500` — a fixed 500ms of inactivity before the call. -/
theorem C9_debounce_500ms (ks : List (String × ℕ)) (q : String) (t : ℕ)
    (hq : q ≠ "") :
    ((processKeystrokes (ks ++ [(q, t)])).st.timers.length = 1)
    ∧ ∀ tm ∈ (processKeystrokes (ks ++ [(q, t)])).st.timers,
        tm.query = q ∧ tm.deadline = t + 500
        ∧ (debounceTimerFire true tm
              (processKeystrokes (ks ++ [(q, t)])).st).searches
            = (processKeystrokes (ks ++ [(q, t)])).st.searches ++ [(q, t + 500)] := by
  have hsplit : processKeystrokes (ks ++ [(q, t)])
      = debounceStep (processKeystrokes ks) (q, t) := by
    unfold processKeystrokes
    rw [List.foldl_append]
    rfl
  have htimers := debounceStep_timers (processKeystrokes ks) q t
    (processKeystrokes_inv ks)
  rw [hsplit, htimers]
  refine ⟨rfl, ?_⟩
  intro tm htm
  simp only [List.mem_singleton] at htm
  subst htm
  refine ⟨rfl, rfl, ?_⟩
  simp [debounceTimerFire, hq]

theorem C9_debounce_500ms_witness :
    ((processKeystrokes ([("a", 0)] ++ [("ab", 100)])).st.timers.length = 1)
    ∧ ∀ tm ∈ (processKeystrokes ([("a", 0)] ++ [("ab", 100)])).st.timers,
        tm.query = "ab" ∧ tm.deadline = 100 + 500
        ∧ (debounceTimerFire true tm
              (processKeystrokes ([("a", 0)] ++ [("ab", 100)])).st).searches
            = (processKeystrokes ([("a", 0)] ++ [("ab", 100)])).st.searches
                ++ [("ab", 100 + 500)] :=
  C9_debounce_500ms [("a", 0)] "ab" 100 (by decide)

/-! ## C2: batch semantics lemmas -/

theorem getAssoc_cons {α : Type} (ak k : String) (av : α)
    (l : List (String × α)) :
    getAssoc ((ak, av) :: l) k = if ak = k then some av else getAssoc l k := by
  by_cases h : ak = k <;> simp [getAssoc, List.find?_cons, h]

theorem getAssoc_setAssoc {α : Type} (l : List (String × α)) (k k' : String)
    (v : α) :
    getAssoc (setAssoc l k v) k'
      = if k = k' then (getAssoc l k').map (fun _ => v)
        else getAssoc l k' := by
  induction l with
  | nil => simp [getAssoc, setAssoc]
  | cons a l ih =>
      obtain ⟨ak, av⟩ := a
      have hset : setAssoc ((ak, av) :: l) k v
          = (if ak == k then (ak, v) else (ak, av)) :: setAssoc l k v := rfl
      rw [hset]
      by_cases h1 : ak = k
      · subst h1
        rw [if_pos (by simp)]
        rw [getAssoc_cons, getAssoc_cons]
        by_cases h2 : ak = k'
        · subst h2; simp
        · simp [h2, ih]
      · rw [if_neg (by simp [h1])]
        rw [getAssoc_cons, getAssoc_cons]
        by_cases h2 : ak = k'
        · subst h2
          have hk : ¬ k = ak := fun he => h1 he.symm
          simp [hk]
        · simp [h2, ih]

theorem getAssoc_append_right {α : Type} (l : List (String × α)) (k : String)
    (v : α) (h : getAssoc l k = none) :
    getAssoc (l ++ [(k, v)]) k = some v := by
  induction l with
  | nil => simp [getAssoc]
  | cons a l ih =>
      obtain ⟨ak, av⟩ := a
      rw [getAssoc_cons] at h
      rw [List.cons_append, getAssoc_cons]
      by_cases h1 : ak = k
      · simp [h1] at h
      · simp only [h1, if_false] at h ⊢
        exact ih h

theorem applyOp_updateStation_venues (st : Store) (i : String) (b : Bool) :
    (applyOp st (.updateStation i b)).venues = st.venues := rfl

theorem applyOp_updateVenue_stations (st : Store) (i : String)
    (d : VenueRecord) :
    (applyOp st (.updateVenue i d)).stations = st.stations := rfl

theorem applyOp_setVenue_stations (st : Store) (i : String) (d : VenueRecord) :
    (applyOp st (.setVenue i d)).stations = st.stations := rfl

/-- Effect on a single station of a run of `Assigned := b` updates for the
ids in `L`: the flag becomes `b` when the station is targeted, and is
untouched otherwise. -/
theorem stations_after_assignOps (L : List String) (b : Bool) (st : Store)
    (sid : String) :
    getAssoc ((L.map fun i => BatchOp.updateStation i b).foldl applyOp st).stations sid
      = if sid ∈ L then (getAssoc st.stations sid).map (fun _ => b)
        else getAssoc st.stations sid := by
  induction L generalizing st with
  | nil => simp
  | cons i L ih =>
      simp only [List.map_cons, List.foldl_cons]
      rw [ih]
      have hg : getAssoc (applyOp st (.updateStation i b)).stations sid
          = if i = sid then (getAssoc st.stations sid).map (fun _ => b)
            else getAssoc st.stations sid := getAssoc_setAssoc _ _ _ _
      rw [hg]
      by_cases h2 : i = sid
      · simp only [h2]
        by_cases h1 : sid ∈ L
        · simp [h1]
          cases getAssoc st.stations sid <;> simp
        · simp [h1]
      · have h2' : ¬ sid = i := fun he => h2 he.symm
        by_cases h1 : sid ∈ L <;> simp [h1, h2, h2']

theorem venues_after_assignOps (L : List String) (b : Bool) (st : Store) :
    ((L.map fun i => BatchOp.updateStation i b).foldl applyOp st).venues
      = st.venues := by
  induction L generalizing st with
  | nil => rfl
  | cons i L ih =>
      simp only [List.map_cons, List.foldl_cons]
      rw [ih, applyOp_updateStation_venues]

/-- C2: the station-ledger save paths are atomic batches.  On a
successful edit-save, every station leaving the venue is marked
unassigned, every station joining it is marked assigned, stations in
neither difference keep their flag, and the venue document is written
with the blank-filtered `stationDetails`; on a successful add-save the
new venue document is created and its stations marked assigned; a failed
commit changes no venue document and no station flag. -/
theorem C2_station_ledger_atomicity
    (st : Store) (vid nid : String) (venue place : VenueRecord)
    (vss : List VenueStation) (sid : String) (b : Bool)
    (hs : getAssoc st.stations sid = some b)
    (hv : (getAssoc st.venues vid).isSome = true)
    (hnid : getAssoc st.venues nid = none) :
    ((sid ∈ venue.stationDetails.map VenueStation.stationId →
        sid ∉ (vss.filter fun vs => vs.stationId != "").map VenueStation.stationId →
        getAssoc (commitBatch st (editVenueBatch vid venue vss) true).stations sid
          = some false)
     ∧ (sid ∈ (vss.filter fun vs => vs.stationId != "").map VenueStation.stationId →
        sid ∉ venue.stationDetails.map VenueStation.stationId →
        getAssoc (commitBatch st (editVenueBatch vid venue vss) true).stations sid
          = some true)
     ∧ ((sid ∈ venue.stationDetails.map VenueStation.stationId ↔
          sid ∈ (vss.filter fun vs => vs.stationId != "").map VenueStation.stationId) →
        getAssoc (commitBatch st (editVenueBatch vid venue vss) true).stations sid
          = some b)
     ∧ getAssoc (commitBatch st (editVenueBatch vid venue vss) true).venues vid
         = some (editVenueDataToSave venue vss))
    ∧ commitBatch st (editVenueBatch vid venue vss) false = st
    ∧ (getAssoc (commitBatch st (addVenueBatch nid place vss) true).venues nid
         = some (addVenueDataToSave place vss)
       ∧ (sid ∈ (vss.filter fun vs => vs.stationId != "").map VenueStation.stationId →
          getAssoc (commitBatch st (addVenueBatch nid place vss) true).stations sid
            = some true))
    ∧ commitBatch st (addVenueBatch nid place vss) false = st := by
  have horig : ∀ x : String,
      x ∈ ((venue.stationDetails.map VenueStation.stationId).dedup.filter
            fun i => !(((vss.filter fun vs => vs.stationId != "").map
              VenueStation.stationId).dedup.contains i))
      ↔ (x ∈ venue.stationDetails.map VenueStation.stationId
          ∧ x ∉ (vss.filter fun vs => vs.stationId != "").map VenueStation.stationId) := by
    intro x
    simp [List.mem_filter, List.mem_dedup]
  have hnew : ∀ x : String,
      x ∈ (((vss.filter fun vs => vs.stationId != "").map
              VenueStation.stationId).dedup.filter
            fun i => !((venue.stationDetails.map VenueStation.stationId).dedup.contains i))
      ↔ (x ∈ (vss.filter fun vs => vs.stationId != "").map VenueStation.stationId
          ∧ x ∉ venue.stationDetails.map VenueStation.stationId) := by
    intro x
    simp [List.mem_filter, List.mem_dedup]
  have hops : editVenueBatch vid venue vss
      = (((venue.stationDetails.map VenueStation.stationId).dedup.filter
            fun i => !(((vss.filter fun vs => vs.stationId != "").map
              VenueStation.stationId).dedup.contains i)).map
          fun i => BatchOp.updateStation i false)
        ++ ((((vss.filter fun vs => vs.stationId != "").map
              VenueStation.stationId).dedup.filter
            fun i => !((venue.stationDetails.map VenueStation.stationId).dedup.contains i)).map
          fun i => BatchOp.updateStation i true)
        ++ [BatchOp.updateVenue vid (editVenueDataToSave venue vss)] := rfl
  have hcommit : commitBatch st (editVenueBatch vid venue vss) true
      = (editVenueBatch vid venue vss).foldl applyOp st := rfl
  have hstations : getAssoc (commitBatch st (editVenueBatch vid venue vss) true).stations sid
      = (if sid ∈ (((vss.filter fun vs => vs.stationId != "").map
              VenueStation.stationId).dedup.filter
            fun i => !((venue.stationDetails.map VenueStation.stationId).dedup.contains i))
         then (if sid ∈ ((venue.stationDetails.map VenueStation.stationId).dedup.filter
                  fun i => !(((vss.filter fun vs => vs.stationId != "").map
                    VenueStation.stationId).dedup.contains i))
               then (getAssoc st.stations sid).map (fun _ => false)
               else getAssoc st.stations sid).map (fun _ => true)
         else (if sid ∈ ((venue.stationDetails.map VenueStation.stationId).dedup.filter
                  fun i => !(((vss.filter fun vs => vs.stationId != "").map
                    VenueStation.stationId).dedup.contains i))
               then (getAssoc st.stations sid).map (fun _ => false)
               else getAssoc st.stations sid)) := by
    rw [hcommit, hops, List.foldl_append, List.foldl_append]
    simp only [List.foldl_cons, List.foldl_nil]
    rw [show ∀ (x : Store),
          (applyOp x (BatchOp.updateVenue vid (editVenueDataToSave venue vss))).stations
            = x.stations from fun _ => rfl]
    rw [stations_after_assignOps, stations_after_assignOps]
  have hvenues : getAssoc (commitBatch st (editVenueBatch vid venue vss) true).venues vid
      = some (editVenueDataToSave venue vss) := by
    rw [hcommit, hops, List.foldl_append, List.foldl_append]
    simp only [List.foldl_cons, List.foldl_nil]
    rw [show ∀ (x : Store),
          (applyOp x (BatchOp.updateVenue vid (editVenueDataToSave venue vss))).venues
            = setAssoc x.venues vid (editVenueDataToSave venue vss) from fun _ => rfl]
    rw [venues_after_assignOps, venues_after_assignOps]
    rw [getAssoc_setAssoc]
    obtain ⟨w, hw⟩ := Option.isSome_iff_exists.mp hv
    simp [hw]
  have haddops : addVenueBatch nid place vss
      = BatchOp.setVenue nid (addVenueDataToSave place vss)
        :: (((vss.filter fun vs => vs.stationId != "").map VenueStation.stationId).map
              fun i => BatchOp.updateStation i true) := by
    simp only [addVenueBatch, addVenueDataToSave, List.map_map]
    rfl
  have haddcommit : commitBatch st (addVenueBatch nid place vss) true
      = (addVenueBatch nid place vss).foldl applyOp st := rfl
  have haddset : (applyOp st (BatchOp.setVenue nid (addVenueDataToSave place vss))).venues
      = st.venues ++ [(nid, addVenueDataToSave place vss)] := by
    simp [applyOp, hnid]
  refine ⟨⟨?_, ?_, ?_, hvenues⟩, rfl, ⟨?_, ?_⟩, rfl⟩
  · intro h1 h2
    rw [hstations]
    rw [if_neg (fun hmem => ((hnew sid).mp hmem).2 h1),
        if_pos ((horig sid).mpr ⟨h1, h2⟩), hs]
    rfl
  · intro h1 h2
    rw [hstations]
    rw [if_pos ((hnew sid).mpr ⟨h1, h2⟩),
        if_neg (fun hmem => ((horig sid).mp hmem).2 h1), hs]
    rfl
  · intro hiff
    rw [hstations]
    rw [if_neg (fun hmem => ((hnew sid).mp hmem).2 (hiff.mpr ((hnew sid).mp hmem).1)),
        if_neg (fun hmem => ((horig sid).mp hmem).2 (hiff.mp ((horig sid).mp hmem).1)),
        hs]
  · rw [haddcommit, haddops]
    simp only [List.foldl_cons]
    rw [show getAssoc ((((vss.filter fun vs => vs.stationId != "").map
            VenueStation.stationId).map fun i => BatchOp.updateStation i true).foldl
            applyOp (applyOp st (BatchOp.setVenue nid (addVenueDataToSave place vss)))).venues nid
          = getAssoc (applyOp st (BatchOp.setVenue nid (addVenueDataToSave place vss))).venues nid
        from by rw [venues_after_assignOps]]
    rw [haddset]
    exact getAssoc_append_right st.venues nid _ hnid
  · intro hmem
    rw [haddcommit, haddops]
    simp only [List.foldl_cons]
    rw [stations_after_assignOps]
    rw [show (applyOp st (BatchOp.setVenue nid (addVenueDataToSave place vss))).stations
          = st.stations from rfl]
    rw [if_pos hmem, hs]
    rfl

/-- Two stations and one venue, the venue owning station `s1`. -/
def c2Store : Store :=
  { stations := [("s1", true), ("s2", false)], venues := [("v1", c7Venue)] }

theorem C2_station_ledger_atomicity_witness :
    getAssoc (commitBatch c2Store (editVenueBatch "v1" c7Venue [⟨"s2", "back"⟩]) true).stations "s1"
      = some false
    ∧ commitBatch c2Store (editVenueBatch "v1" c7Venue [⟨"s2", "back"⟩]) false
        = c2Store := by
  have h := C2_station_ledger_atomicity c2Store "v1" "v9" c7Venue
    { venueName := "P", stationDetails := [], totalChargersAvailable := 0 }
    [⟨"s2", "back"⟩] "s1" true rfl rfl rfl
  exact ⟨h.1.1 (by decide) (by decide), h.2.1⟩

end Chargedrops
